import Mathlib

/-!
Shallow embedding of the Kobalte `ListboxRoot` component
(`packages/core/src/listbox/listbox-root.tsx`) and of the `SelectListbox`
component that wraps it, together with theorems about their behaviour.

Framework utilities that the components only forward data to and read
results from (`createListState`, `createSelectableList`) are treated as
opaque parameters of the embedding, so the theorems below hold for every
implementation of those utilities.  Repository utilities whose code is not
part of the embedded sources (`composeEventHandlers`, the select context's
`registerListboxId`) are modelled from the specification, as documented on
their definitions.
-/

namespace Kobalte

variable {T : Type}

/-- Selection mode of a selection manager (TS `"none" | "single" | "multiple"`). -/
inductive SelectionMode where
  | none
  | single
  | multiple
deriving DecidableEq

/-- How multiple selection behaves (TS `"toggle" | "replace"`). -/
inductive SelectionBehavior where
  | toggle
  | replace
deriving DecidableEq

/-- Focus strategy (TS `"first" | "last"`). -/
inductive FocusStrategy where
  | first
  | last
deriving DecidableEq

/-- An `autoFocus` value: either a boolean or a focus strategy. -/
inductive AutoFocusVal where
  | flag (b : Bool)
  | strategy (s : FocusStrategy)
deriving DecidableEq

/-- The selection manager carried by a `ListState`.  Only the data the
embedded components observe is modelled: the selection mode (read at
listbox-root.tsx line 226) and the selected keys. -/
structure SelectionManager where
  selectionMode : SelectionMode
  selectedKeys : List String
deriving DecidableEq

/-- A framework `ListState`: a selection manager plus a collection, the two
members `ListboxRoot` reads (`listState().selectionManager()` and
`listState().collection()`).  The collection is modelled by its keys. -/
structure ListState where
  selectionManager : SelectionManager
  collection : List String
deriving DecidableEq

/-- An opaque keyboard delegate (only ever forwarded by `ListboxRoot`). -/
structure KeyboardDelegate where
  delegateId : Nat
deriving DecidableEq

/-- An opaque DOM element (only ever forwarded). -/
structure HTMLElement where
  elementId : Nat
deriving DecidableEq

/-- An opaque JSX element, the result type of the `children` render prop. -/
inductive JSXElement where
  | empty
  | node (tag : String)
deriving DecidableEq

/-- A DOM event handler, modelled as a transformer of an abstract event
log so that the order in which composed handlers run is observable. -/
abbrev Handler := List String → List String

/-- A TS `string | ((option: T) => R)`: property name or getter function,
used by the option-accessor props. -/
abbrev StrOrFun (T R : Type) := String ⊕ (T → R)

/-- Props accepted by `ListboxRoot` (listbox-root.tsx lines 25-114).
`none` stands for an absent (`undefined`) prop.  The DOM attributes the
claims mention (`role`, `tabIndex`, `aria-labelledby`) are included
because `ListboxRootProps` extends the `ul` element props. -/
structure ListboxRootProps (T : Type) where
  id : Option String
  role : Option String
  tabIndex : Option Int
  ariaLabelledBy : Option String
  value : Option (List String)
  defaultValue : Option (List String)
  onValueChange : Option (List String → Unit)
  options : Option (List T)
  optionValue : Option (StrOrFun T String)
  optionTextValue : Option (StrOrFun T String)
  optionDisabled : Option (StrOrFun T Bool)
  optionGroupChildren : Option (StrOrFun T (List T))
  isOptionGroup : Option (T → Bool)
  state : Option ListState
  keyboardDelegate : Option KeyboardDelegate
  autoFocus : Option AutoFocusVal
  shouldFocusWrap : Option Bool
  shouldUseVirtualFocus : Option Bool
  shouldSelectOnPressUp : Option Bool
  shouldFocusOnHover : Option Bool
  allowDuplicateSelectionEvents : Option Bool
  disallowEmptySelection : Option Bool
  selectionBehavior : Option SelectionBehavior
  selectionMode : Option SelectionMode
  selectOnFocus : Option Bool
  disallowTypeAhead : Option Bool
  allowsTabNavigation : Option Bool
  isVirtualized : Option Bool
  scrollToItem : Option (String → Unit)
  scrollRef : Option (Unit → Option HTMLElement)
  children : Option (List String → JSXElement)
  onKeyDown : Option Handler
  onMouseDown : Option Handler
  onFocusIn : Option Handler
  onFocusOut : Option Handler

/-- A props object with every prop absent, used to build concrete props. -/
def emptyListboxRootProps (T : Type) : ListboxRootProps T :=
  { id := none
    role := none
    tabIndex := none
    ariaLabelledBy := none
    value := none
    defaultValue := none
    onValueChange := none
    options := none
    optionValue := none
    optionTextValue := none
    optionDisabled := none
    optionGroupChildren := none
    isOptionGroup := none
    state := none
    keyboardDelegate := none
    autoFocus := none
    shouldFocusWrap := none
    shouldUseVirtualFocus := none
    shouldSelectOnPressUp := none
    shouldFocusOnHover := none
    allowDuplicateSelectionEvents := none
    disallowEmptySelection := none
    selectionBehavior := none
    selectionMode := none
    selectOnFocus := none
    disallowTypeAhead := none
    allowsTabNavigation := none
    isVirtualized := none
    scrollToItem := none
    scrollRef := none
    children := none
    onKeyDown := none
    onMouseDown := none
    onFocusIn := none
    onFocusOut := none }

/-- The `mergeDefaultProps` call of `ListboxRoot` (lines 122-131): a
user-supplied prop overrides the default; `uid` models the value of
`createUniqueId()` for this instance. -/
def mergeListboxRootDefaults (uid : String) (p : ListboxRootProps T) :
    ListboxRootProps T :=
  { p with
    id := some (p.id.getD ("listbox-" ++ uid))
    selectionMode := some (p.selectionMode.getD SelectionMode.single)
    isVirtualized := some (p.isVirtualized.getD false) }

/-- The `local` half of the `splitProps` call (lines 133-166): exactly the
keys listed there (the `ref` key is not modelled). -/
structure LocalProps (T : Type) where
  children : Option (List String → JSXElement)
  value : Option (List String)
  defaultValue : Option (List String)
  onValueChange : Option (List String → Unit)
  options : Option (List T)
  optionValue : Option (StrOrFun T String)
  optionTextValue : Option (StrOrFun T String)
  optionDisabled : Option (StrOrFun T Bool)
  optionGroupChildren : Option (StrOrFun T (List T))
  isOptionGroup : Option (T → Bool)
  state : Option ListState
  keyboardDelegate : Option KeyboardDelegate
  autoFocus : Option AutoFocusVal
  selectionMode : Option SelectionMode
  shouldFocusWrap : Option Bool
  shouldUseVirtualFocus : Option Bool
  shouldSelectOnPressUp : Option Bool
  shouldFocusOnHover : Option Bool
  allowDuplicateSelectionEvents : Option Bool
  disallowEmptySelection : Option Bool
  selectionBehavior : Option SelectionBehavior
  selectOnFocus : Option Bool
  disallowTypeAhead : Option Bool
  allowsTabNavigation : Option Bool
  isVirtualized : Option Bool
  scrollToItem : Option (String → Unit)
  scrollRef : Option (Unit → Option HTMLElement)
  onKeyDown : Option Handler
  onMouseDown : Option Handler
  onFocusIn : Option Handler
  onFocusOut : Option Handler

/-- The `others` half of the `splitProps` call: the props not listed in the
key list (in particular `id`, `role` and `tabIndex` stay in `others`). -/
structure OthersProps where
  id : Option String
  role : Option String
  tabIndex : Option Int
  ariaLabelledBy : Option String

/-- Projection of `splitProps` onto its first component. -/
def splitLocal (p : ListboxRootProps T) : LocalProps T :=
  { children := p.children
    value := p.value
    defaultValue := p.defaultValue
    onValueChange := p.onValueChange
    options := p.options
    optionValue := p.optionValue
    optionTextValue := p.optionTextValue
    optionDisabled := p.optionDisabled
    optionGroupChildren := p.optionGroupChildren
    isOptionGroup := p.isOptionGroup
    state := p.state
    keyboardDelegate := p.keyboardDelegate
    autoFocus := p.autoFocus
    selectionMode := p.selectionMode
    shouldFocusWrap := p.shouldFocusWrap
    shouldUseVirtualFocus := p.shouldUseVirtualFocus
    shouldSelectOnPressUp := p.shouldSelectOnPressUp
    shouldFocusOnHover := p.shouldFocusOnHover
    allowDuplicateSelectionEvents := p.allowDuplicateSelectionEvents
    disallowEmptySelection := p.disallowEmptySelection
    selectionBehavior := p.selectionBehavior
    selectOnFocus := p.selectOnFocus
    disallowTypeAhead := p.disallowTypeAhead
    allowsTabNavigation := p.allowsTabNavigation
    isVirtualized := p.isVirtualized
    scrollToItem := p.scrollToItem
    scrollRef := p.scrollRef
    onKeyDown := p.onKeyDown
    onMouseDown := p.onMouseDown
    onFocusIn := p.onFocusIn
    onFocusOut := p.onFocusOut }

/-- Projection of `splitProps` onto its second component. -/
def splitOthers (p : ListboxRootProps T) : OthersProps :=
  { id := p.id
    role := p.role
    tabIndex := p.tabIndex
    ariaLabelledBy := p.ariaLabelledBy }

/-- The argument record `ListboxRoot` hands to `createListState`
(lines 173-187).  The source wraps each field in an accessor; the
embedding records the accessed values. -/
structure CreateListStateArgs (T : Type) where
  selectedKeys : Option (List String)
  defaultSelectedKeys : Option (List String)
  onSelectionChange : Option (List String → Unit)
  allowDuplicateSelectionEvents : Option Bool
  disallowEmptySelection : Option Bool
  selectionBehavior : Option SelectionBehavior
  selectionMode : Option SelectionMode
  dataSource : List T
  getKey : Option (StrOrFun T String)
  getTextValue : Option (StrOrFun T String)
  getIsDisabled : Option (StrOrFun T Bool)
  getSectionChildren : Option (StrOrFun T (List T))
  getIsSection : Option (T → Bool)

/-- The `createListState` arguments built from `local`, with the already
evaluated `dataSource` (`local.options ?? []`) passed in. -/
def createListStateArgsWith (l : LocalProps T) (dataSource : List T) :
    CreateListStateArgs T :=
  { selectedKeys := l.value
    defaultSelectedKeys := l.defaultValue
    onSelectionChange := l.onValueChange
    allowDuplicateSelectionEvents := l.allowDuplicateSelectionEvents
    disallowEmptySelection := l.disallowEmptySelection
    selectionBehavior := l.selectionBehavior
    selectionMode := l.selectionMode
    dataSource := dataSource
    getKey := l.optionValue
    getTextValue := l.optionTextValue
    getIsDisabled := l.optionDisabled
    getSectionChildren := l.optionGroupChildren
    getIsSection := l.isOptionGroup }

/-- The `createListState` arguments of lines 173-187, including the
nullish default `local.options ?? []` for `dataSource`. -/
def createListStateArgsOf (l : LocalProps T) : CreateListStateArgs T :=
  createListStateArgsWith l (l.options.getD [])

/-- Which list state `ListboxRoot` uses (the `createMemo` at lines
168-188): either the externally provided `state` prop, or a state created
by `createListState` from the recorded arguments. -/
inductive ListStateSource (T : Type) where
  | provided (st : ListState)
  | created (args : CreateListStateArgs T)

/-- The body of the `listState` memo (lines 168-188). -/
def listState (l : LocalProps T) : ListStateSource T :=
  match l.state with
  | some st => ListStateSource.provided st
  | none => ListStateSource.created (createListStateArgsOf l)

/-- Resolve the list state actually used, with `cls` standing for the
opaque framework utility `createListState`. -/
def resolveListState (cls : CreateListStateArgs T → ListState)
    (l : LocalProps T) : ListState :=
  match listState l with
  | ListStateSource.provided st => st
  | ListStateSource.created args => cls args

/-- The list-state source of a full `ListboxRoot` run: defaults merged,
props split, memo evaluated. -/
def listStateOf (uid : String) (p : ListboxRootProps T) : ListStateSource T :=
  listState (splitLocal (mergeListboxRootDefaults uid p))

/-- The resolved list state of a full `ListboxRoot` run. -/
def resolvedListStateOf (cls : CreateListStateArgs T → ListState)
    (uid : String) (p : ListboxRootProps T) : ListState :=
  resolveListState cls (splitLocal (mergeListboxRootDefaults uid p))

/-- The result of the framework utility `createSelectableList` that
`ListboxRoot` reads: a computed `tabIndex` and the four selectable-list
event handlers (lines 224 and 228-231).  The embedding treats it as an
opaque parameter. -/
structure SelectableListResult where
  tabIndex : Option Int
  onKeyDown : Handler
  onMouseDown : Handler
  onFocusIn : Handler
  onFocusOut : Handler

/-- Modelled from the spec: `composeEventHandlers` from the repository's
utils package, whose source is not among the embedded files.  It returns a
handler that runs the given possibly-absent handlers in list order,
skipping absent ones. -/
def composeEventHandlers (hs : List (Option Handler)) : Handler :=
  fun s =>
    hs.foldl (fun acc h =>
      match h with
      | some f => f acc
      | none => acc) s

/-- Run a possibly-absent handler (an absent handler leaves the log as is). -/
def runHandler (h : Option Handler) (s : List String) : List String :=
  match h with
  | some f => f s
  | none => s

/-- The root `ul` element rendered by `ListboxRoot` (lines 218-237),
recorded through the attributes the claims are about.  `role` and
`tabIndex` account for the `{...others}` spread that follows them:  a key
present in `others` overrides the attribute written before the spread. -/
structure RenderedListbox where
  role : String
  tabIndex : Option Int
  ariaMultiselectable : Option Bool
  id : Option String
  ariaLabelledBy : Option String
  onKeyDown : Handler
  onMouseDown : Handler
  onFocusIn : Handler
  onFocusOut : Handler
  children : Option JSXElement

/-- The `ListboxRoot` component (lines 119-238): merge the default props,
split them, evaluate the `listState` memo and render the root element.
`uid` models `createUniqueId()`; `cls` and `sl` stand for the opaque
framework utilities `createListState` and `createSelectableList`. -/
def ListboxRoot (uid : String) (cls : CreateListStateArgs T → ListState)
    (sl : SelectableListResult) (p : ListboxRootProps T) : RenderedListbox :=
  let merged := mergeListboxRootDefaults uid p
  let l := splitLocal merged
  let others := splitOthers merged
  let st := resolveListState cls l
  { role := others.role.getD ("listbox")
    tabIndex :=
      match others.tabIndex with
      | some t => some t
      | none => sl.tabIndex
    ariaMultiselectable :=
      match st.selectionManager.selectionMode with
      | SelectionMode.multiple => some true
      | _ => none
    id := others.id
    ariaLabelledBy := others.ariaLabelledBy
    onKeyDown := composeEventHandlers [l.onKeyDown, some sl.onKeyDown]
    onMouseDown := composeEventHandlers [l.onMouseDown, some sl.onMouseDown]
    onFocusIn := composeEventHandlers [l.onFocusIn, some sl.onFocusIn]
    onFocusOut := composeEventHandlers [l.onFocusOut, some sl.onFocusOut]
    children := l.children.map (fun f => f st.collection) }

/-- A strict call `f(a)` on a possibly-undefined `f`: throws a
`TypeError` when `f` is undefined.  `ListboxRoot` never performs one on an
optional prop, which is what the safety claim is about. -/
def jsApp {α β : Type} (f : Option (α → β)) (a : α) : Except String β :=
  match f with
  | some g => Except.ok (g a)
  | none => Except.error ("TypeError: undefined is not a function")

/-- An optional-chaining call `f?.(a)`: never throws, yields the result
when `f` is defined. -/
def jsOptApp {α β : Type} (f : Option (α → β)) (a : α) :
    Except String (Option β) :=
  Except.ok (f.map (fun g => g a))

/-- A nullish-coalescing read `v ?? d`: never throws. -/
def jsNullishD {α : Type} (v : Option α) (d : α) : Except String α :=
  Except.ok (v.getD d)

/-- ListboxRoot under a dynamic semantics that tracks JS exceptions: the
sites where the source reads an optional prop are performed through the
guarded operations the source uses (`local.options ?? []` at line 181,
`local.scrollRef?.()` at line 206, `local.children?.(...)` at line 234);
the callback props `onValueChange`, `keyboardDelegate` and `scrollToItem`
are forwarded as optional values, never called. -/
def ListboxRootDyn (uid : String) (cls : CreateListStateArgs T → ListState)
    (sl : SelectableListResult) (p : ListboxRootProps T) :
    Except String RenderedListbox := do
  let merged := mergeListboxRootDefaults uid p
  let l := splitLocal merged
  let others := splitOthers merged
  let _dataSource ← jsNullishD l.options []
  let st := resolveListState cls l
  let _scrollEl ← jsOptApp l.scrollRef ()
  let childrenOut ← jsOptApp l.children st.collection
  pure
    { role := others.role.getD ("listbox")
      tabIndex :=
        match others.tabIndex with
        | some t => some t
        | none => sl.tabIndex
      ariaMultiselectable :=
        match st.selectionManager.selectionMode with
        | SelectionMode.multiple => some true
        | _ => none
      id := others.id
      ariaLabelledBy := others.ariaLabelledBy
      onKeyDown := composeEventHandlers [l.onKeyDown, some sl.onKeyDown]
      onMouseDown := composeEventHandlers [l.onMouseDown, some sl.onMouseDown]
      onFocusIn := composeEventHandlers [l.onFocusIn, some sl.onFocusIn]
      onFocusOut := composeEventHandlers [l.onFocusOut, some sl.onFocusOut]
      children := childrenOut }

/-- The select context values `SelectListbox` reads. -/
structure SelectContext where
  listState : ListState
  isVirtualized : Bool
  autoFocus : AutoFocusVal
  generateId : String → String
  listboxAriaLabelledBy : Option String

/-- Props accepted by `SelectListbox`: the `ul` props plus the picked
`scrollRef`, `children` and `scrollToItem` listbox options.  The picked
interface does not include the selection-related listbox options, so a
caller cannot pass them. -/
structure SelectListboxProps (T : Type) where
  id : Option String
  scrollRef : Option (Unit → Option HTMLElement)
  scrollToItem : Option (String → Unit)
  children : Option (List String → JSXElement)

/-- The id `SelectListbox` uses: the `id` prop, defaulting to
`context.generateId("listbox")` through `mergeDefaultProps`. -/
def selectListboxId (ctx : SelectContext) (p : SelectListboxProps T) : String :=
  p.id.getD (ctx.generateId ("listbox"))

/-- The `SelectListbox` component: the props object it passes to
`Listbox.Root` (lines 50-62 of the select listbox source).  After the
explicitly written attributes, `{...others}` spreads the remaining props
(`scrollRef`, `scrollToItem`, `children`). -/
def SelectListbox (ctx : SelectContext) (p : SelectListboxProps T) :
    ListboxRootProps T :=
  { emptyListboxRootProps T with
    id := some (selectListboxId ctx p)
    state := some ctx.listState
    isVirtualized := some ctx.isVirtualized
    autoFocus := some ctx.autoFocus
    shouldSelectOnPressUp := some true
    shouldFocusOnHover := some true
    ariaLabelledBy := ctx.listboxAriaLabelledBy
    scrollRef := p.scrollRef
    scrollToItem := p.scrollToItem
    children := p.children }

/-- The listbox-id registration state of the select context. -/
structure SelectRegState where
  listboxId : Option String
deriving DecidableEq

/-- Modelled from the spec: `registerListboxId` of the select context,
whose source is not among the embedded files.  Registering an id stores it
in the context and returns a cleanup that clears the stored id. -/
def registerListboxId (id : String) (_s : SelectRegState) :
    SelectRegState × (SelectRegState → SelectRegState) :=
  ({ listboxId := some id }, fun s => { s with listboxId := none })

/-- The effect `createEffect(() => onCleanup(context.registerListboxId(local.id!)))`
under the framework's effect semantics: the effect registers the current
id on mount (`id0`) and again after every id change (`ids`), and before
each re-run the previous cleanup executes.  The returned function is the
cleanup still pending, which runs on unmount. -/
def runListboxIdEffect (s0 : SelectRegState) (id0 : String) (ids : List String) :
    SelectRegState × (SelectRegState → SelectRegState) :=
  match ids with
  | [] => registerListboxId id0 s0
  | id1 :: rest =>
      let (s1, c1) := registerListboxId id0 s0
      runListboxIdEffect (c1 s1) id1 rest

/-- The registration state while the component is mounted. -/
def mountedRegState (s0 : SelectRegState) (id0 : String) (ids : List String) :
    SelectRegState :=
  (runListboxIdEffect s0 id0 ids).1

/-- The registration state after unmount: the pending cleanup has run. -/
def unmountedRegState (s0 : SelectRegState) (id0 : String) (ids : List String) :
    SelectRegState :=
  let (s, c) := runListboxIdEffect s0 id0 ids
  c s

/-! Concrete values used by the witness theorems. -/

/-- A list state whose selection mode is `multiple`. -/
def stMulti : ListState :=
  { selectionManager := { selectionMode := SelectionMode.multiple, selectedKeys := [] }
    collection := ["a", "b"] }

/-- A list state whose selection mode is `single`. -/
def stSingle : ListState :=
  { selectionManager := { selectionMode := SelectionMode.single, selectedKeys := [] }
    collection := [] }

/-- A concrete selectable-list result. -/
def slW : SelectableListResult :=
  { tabIndex := some 0
    onKeyDown := fun s => s ++ ["sl.onKeyDown"]
    onMouseDown := fun s => s ++ ["sl.onMouseDown"]
    onFocusIn := fun s => s ++ ["sl.onFocusIn"]
    onFocusOut := fun s => s ++ ["sl.onFocusOut"] }

/-- C1: when the `state` prop is provided, the list state used by
`ListboxRoot` is exactly the provided state and `createListState` is never
invoked, so the `value`, `defaultValue`, `onValueChange`, `options` and
option-accessor props (none of which appear in the provided state) have no
effect on the selection state used. -/
theorem listboxRoot_provided_state_used (uid : String) (p : ListboxRootProps T)
    (st : ListState) (h : p.state = some st) :
    listStateOf uid p = ListStateSource.provided st ∧
      ∀ args : CreateListStateArgs T,
        listStateOf uid p ≠ ListStateSource.created args := by
  have hs : (splitLocal (mergeListboxRootDefaults uid p)).state = some st := h
  refine ⟨?_, ?_⟩
  · simp [listStateOf, listState, hs]
  · intro args
    simp [listStateOf, listState, hs]

/-- Witness for C1 at a concrete props object carrying a `state` prop. -/
theorem listboxRoot_provided_state_used_witness :
    listStateOf ("u0") { emptyListboxRootProps Nat with state := some stMulti } =
      ListStateSource.provided stMulti :=
  (listboxRoot_provided_state_used ("u0")
    { emptyListboxRootProps Nat with state := some stMulti } stMulti rfl).1

/-- C2: the rendered `aria-multiselectable` attribute is `true` exactly
when the selection manager of the list state in use has selection mode
`multiple`, and is absent otherwise; when a `state` prop is supplied, the
list state in use is that state, independently of the `selectionMode`
prop. -/
theorem listboxRoot_aria_multiselectable (uid : String)
    (cls : CreateListStateArgs T → ListState) (sl : SelectableListResult)
    (p : ListboxRootProps T) :
    ((ListboxRoot uid cls sl p).ariaMultiselectable = some true ↔
        (resolvedListStateOf cls uid p).selectionManager.selectionMode =
          SelectionMode.multiple) ∧
      ((resolvedListStateOf cls uid p).selectionManager.selectionMode ≠
          SelectionMode.multiple →
        (ListboxRoot uid cls sl p).ariaMultiselectable = none) ∧
      ∀ st : ListState, p.state = some st → resolvedListStateOf cls uid p = st := by
  have key : (ListboxRoot uid cls sl p).ariaMultiselectable =
      (match (resolvedListStateOf cls uid p).selectionManager.selectionMode with
        | SelectionMode.multiple => some true
        | _ => none) := rfl
  refine ⟨?_, ?_, ?_⟩
  · rw [key]
    cases hm : (resolvedListStateOf cls uid p).selectionManager.selectionMode <;>
      simp
  · intro hne
    rw [key]
    cases hm : (resolvedListStateOf cls uid p).selectionManager.selectionMode <;>
      simp_all
  · intro st hst
    have hs : (splitLocal (mergeListboxRootDefaults uid p)).state = some st := hst
    simp [resolvedListStateOf, resolveListState, listState, hs]

/-- Witness for C2: with an externally provided multiple-selection state
(and the default `selectionMode` of `single`), the attribute is `true`. -/
theorem listboxRoot_aria_multiselectable_witness :
    (ListboxRoot ("u0") (fun _ => stSingle) slW
        { emptyListboxRootProps Nat with state := some stMulti }).ariaMultiselectable =
      some true :=
  (listboxRoot_aria_multiselectable ("u0") (fun _ => stSingle) slW
    { emptyListboxRootProps Nat with state := some stMulti }).1.mpr rfl

/-- C3: when no `state` prop is provided, `ListboxRoot` hands
`createListState` the `options` prop (defaulting to the empty array) as
`dataSource` and the five option accessors unchanged as `getKey`,
`getTextValue`, `getIsDisabled`, `getSectionChildren` and `getIsSection`. -/
theorem listboxRoot_created_state_args (uid : String) (p : ListboxRootProps T)
    (h : p.state = none) :
    listStateOf uid p =
        ListStateSource.created
          (createListStateArgsOf (splitLocal (mergeListboxRootDefaults uid p))) ∧
      (createListStateArgsOf (splitLocal (mergeListboxRootDefaults uid p))).dataSource =
        p.options.getD [] ∧
      (createListStateArgsOf (splitLocal (mergeListboxRootDefaults uid p))).getKey =
        p.optionValue ∧
      (createListStateArgsOf (splitLocal (mergeListboxRootDefaults uid p))).getTextValue =
        p.optionTextValue ∧
      (createListStateArgsOf (splitLocal (mergeListboxRootDefaults uid p))).getIsDisabled =
        p.optionDisabled ∧
      (createListStateArgsOf (splitLocal (mergeListboxRootDefaults uid p))).getSectionChildren =
        p.optionGroupChildren ∧
      (createListStateArgsOf (splitLocal (mergeListboxRootDefaults uid p))).getIsSection =
        p.isOptionGroup := by
  have hs : (splitLocal (mergeListboxRootDefaults uid p)).state = none := h
  exact ⟨by simp [listStateOf, listState, hs], rfl, rfl, rfl, rfl, rfl, rfl⟩

/-- Witness for C3 at a concrete props object with options and no state. -/
theorem listboxRoot_created_state_args_witness :
    (createListStateArgsOf (splitLocal (mergeListboxRootDefaults ("u0")
        { emptyListboxRootProps Nat with options := some [1, 2] }))).dataSource =
      [1, 2] :=
  (listboxRoot_created_state_args ("u0")
    { emptyListboxRootProps Nat with options := some [1, 2] } rfl).2.1

/-- C4: `SelectListbox` passes the select context's list state as the
`state` prop of `Listbox.Root`, its `isVirtualized` and `autoFocus` come
from the context, `shouldSelectOnPressUp` and `shouldFocusOnHover` are
unconditionally `true` for every caller props object, and the listbox
therefore always uses the context's state rather than creating one. -/
theorem selectListbox_delegates_to_context (ctx : SelectContext)
    (p : SelectListboxProps T) :
    (SelectListbox ctx p).state = some ctx.listState ∧
      (SelectListbox ctx p).isVirtualized = some ctx.isVirtualized ∧
      (SelectListbox ctx p).autoFocus = some ctx.autoFocus ∧
      (SelectListbox ctx p).shouldSelectOnPressUp = some true ∧
      (SelectListbox ctx p).shouldFocusOnHover = some true ∧
      ∀ uid : String,
        listStateOf uid (SelectListbox ctx p) =
          ListStateSource.provided ctx.listState :=
  ⟨rfl, rfl, rfl, rfl, rfl, fun _ => rfl⟩

/-- Composing a possibly-absent handler with a present one runs the first
handler (when present) before the second. -/
theorem composeEventHandlers_pair (h : Option Handler) (g : Handler)
    (s : List String) :
    composeEventHandlers [h, some g] s = g (runHandler h s) := by
  cases h <;> rfl

/-- C5: each of the four rendered event handlers is the composition of the
user-supplied handler with the selectable-list handler, the user-supplied
handler running first. -/
theorem listboxRoot_handler_order (uid : String)
    (cls : CreateListStateArgs T → ListState) (sl : SelectableListResult)
    (p : ListboxRootProps T) (s : List String) :
    (ListboxRoot uid cls sl p).onKeyDown s =
        sl.onKeyDown (runHandler p.onKeyDown s) ∧
      (ListboxRoot uid cls sl p).onMouseDown s =
        sl.onMouseDown (runHandler p.onMouseDown s) ∧
      (ListboxRoot uid cls sl p).onFocusIn s =
        sl.onFocusIn (runHandler p.onFocusIn s) ∧
      (ListboxRoot uid cls sl p).onFocusOut s =
        sl.onFocusOut (runHandler p.onFocusOut s) :=
  ⟨composeEventHandlers_pair p.onKeyDown sl.onKeyDown s,
    composeEventHandlers_pair p.onMouseDown sl.onMouseDown s,
    composeEventHandlers_pair p.onFocusIn sl.onFocusIn s,
    composeEventHandlers_pair p.onFocusOut sl.onFocusOut s⟩

/-- C6: under the exception-tracking semantics, `ListboxRoot` completes
without throwing (and agrees with the pure rendering) whenever the
optional props `children`, `scrollRef`, `options`, `onValueChange`,
`keyboardDelegate` and `scrollToItem` are all absent, because every access
to an optional prop is guarded. -/
theorem listboxRoot_safe_without_optional_props (uid : String)
    (cls : CreateListStateArgs T → ListState) (sl : SelectableListResult)
    (p : ListboxRootProps T) (_hc : p.children = none)
    (_hsr : p.scrollRef = none) (_ho : p.options = none)
    (_hv : p.onValueChange = none) (_hk : p.keyboardDelegate = none)
    (_hsi : p.scrollToItem = none) :
    ListboxRootDyn uid cls sl p = Except.ok (ListboxRoot uid cls sl p) := rfl

/-- Witness for C6 at a props object omitting every optional prop. -/
theorem listboxRoot_safe_without_optional_props_witness :
    ListboxRootDyn ("u0") (fun _ => stSingle) slW (emptyListboxRootProps Nat) =
      Except.ok (ListboxRoot ("u0") (fun _ => stSingle) slW
        (emptyListboxRootProps Nat)) :=
  listboxRoot_safe_without_optional_props ("u0") (fun _ => stSingle) slW
    (emptyListboxRootProps Nat) rfl rfl rfl rfl rfl rfl

/-- C7: the merged props give precedence to a user-supplied `id`,
`selectionMode` or `isVirtualized`, and default to `listbox-` followed by
the instance's unique id, `single`, and `false` respectively; the rendered
element's `id` attribute is the merged id. -/
theorem listboxRoot_default_props (uid : String)
    (cls : CreateListStateArgs T → ListState) (sl : SelectableListResult)
    (p : ListboxRootProps T) :
    (mergeListboxRootDefaults uid p).id =
        some (p.id.getD ("listbox-" ++ uid)) ∧
      (mergeListboxRootDefaults uid p).selectionMode =
        some (p.selectionMode.getD SelectionMode.single) ∧
      (mergeListboxRootDefaults uid p).isVirtualized =
        some (p.isVirtualized.getD false) ∧
      (ListboxRoot uid cls sl p).id = some (p.id.getD ("listbox-" ++ uid)) :=
  ⟨rfl, rfl, rfl, rfl⟩

/-- C8: because `role` and `tabIndex` are not removed by `splitProps` and
`{...others}` is spread after the `role="listbox"` and computed `tabIndex`
attributes, a user-supplied `role` or `tabIndex` overrides them, and the
rendered role is `listbox` exactly when the user passes none. -/
theorem listboxRoot_role_tabIndex_override (uid : String)
    (cls : CreateListStateArgs T → ListState) (sl : SelectableListResult)
    (p : ListboxRootProps T) :
    (ListboxRoot uid cls sl p).role = p.role.getD ("listbox") ∧
      (ListboxRoot uid cls sl p).tabIndex =
        (match p.tabIndex with
          | some t => some t
          | none => sl.tabIndex) :=
  ⟨rfl, rfl⟩

/-- The id-registration effect leaves the last id registered while
mounted, and its pending cleanup always clears the registration. -/
theorem runListboxIdEffect_spec (s0 : SelectRegState) (id0 : String)
    (ids : List String) :
    (runListboxIdEffect s0 id0 ids).1.listboxId = some (ids.getLastD id0) ∧
      ∀ s : SelectRegState,
        ((runListboxIdEffect s0 id0 ids).2 s).listboxId = none := by
  induction ids generalizing s0 id0 with
  | nil => exact ⟨rfl, fun _ => rfl⟩
  | cons id1 rest ih =>
      have h := ih { listboxId := none } id1
      have hstep : runListboxIdEffect s0 id0 (id1 :: rest) =
          runListboxIdEffect { listboxId := none } id1 rest := rfl
      rw [hstep, List.getLastD_cons]
      exact h

/-- C9: while mounted, the select context's registered listbox id is the
current id of `SelectListbox` (the `id` prop, defaulting to
`generateId("listbox")`), the effect re-registers the latest id after id
changes, and the cleanup run on unmount leaves no id registered. -/
theorem selectListbox_registers_and_cleans_id (ctx : SelectContext)
    (p : SelectListboxProps T) (s0 : SelectRegState) (ids : List String) :
    (mountedRegState s0 (selectListboxId ctx p) ids).listboxId =
        some (ids.getLastD (selectListboxId ctx p)) ∧
      (unmountedRegState s0 (selectListboxId ctx p) ids).listboxId = none ∧
      (SelectListbox ctx p).id = some (selectListboxId ctx p) := by
  refine ⟨(runListboxIdEffect_spec s0 (selectListboxId ctx p) ids).1, ?_, rfl⟩
  exact (runListboxIdEffect_spec s0 (selectListboxId ctx p) ids).2
    (runListboxIdEffect s0 (selectListboxId ctx p) ids).1

end Kobalte
